import Mathlib

/-!
# Verification of the coursera downloader core

A shallow embedding of the cookie store, session validation and syllabus
parsing logic of the `coursera` package (`coursera/cookies.py`,
`coursera/coursera.py`, `coursera/define.py`, `coursera/utils.py`),
together with proofs and refutations of the specified properties.

Stateful Python code is modelled by explicit state passing; HTML documents
are modelled structurally (the fields BeautifulSoup queries extract);
Python exceptions are modelled with `Except`; the Netscape cookie-file
format is modelled at the level of lines and tab-separated fields.
-/

namespace Coursera

/-! ## Python string primitives used by the sources -/

/-- ASCII whitespace stripped by Python `str.strip()`. -/
def isPySpace (c : Char) : Bool :=
  c = ' ' || c = '\t' || c = '\n' || c = '\x0d' || c = '\x0b' || c = '\x0c'

/-- Python `str.strip()` (model restricted to ASCII whitespace; the code
never feeds strings whose ends carry non-ASCII spaces). -/
def pyStrip (s : String) : String :=
  String.mk (((s.toList.dropWhile isPySpace).reverse.dropWhile isPySpace).reverse)

/-- One character of Python `str.lower()`: ASCII uppercase letters are
mapped to lowercase, all other characters are unchanged. -/
def lowerChar (c : Char) : Char :=
  if 65 ≤ c.toNat ∧ c.toNat ≤ 90 then Char.ofNat (c.toNat + 32) else c

/-- Python `str.lower()` on the ASCII domain strings the code compares. -/
def pyLower (s : String) : String := String.mk (s.toList.map lowerChar)

/-- Split a character list at the first `':'`; returns the parts before and
after it (`urlparse`'s scheme detection reads the part before). -/
def splitAtColon : List Char → Option (List Char × List Char)
  | [] => none
  | c :: t =>
    if c = ':' then some ([], t)
    else (splitAtColon t).map (fun p => (c :: p.1, p.2))

/-- `urlparse.scheme_chars`: letters, digits, `+`, `-` and `.`. -/
def schemeChar (c : Char) : Bool :=
  c.isAlpha || c.isDigit || c == '+' || c == '-' || c == '.'

/-- `urlparse(url).scheme` is non-empty (Python 2 `urlparse.urlsplit`): there
is a `':'` at index `> 0`, every character before it is a scheme character,
and the part after it is empty or not all digits (the port-number guard). -/
def hasSchemeL (l : List Char) : Bool :=
  match splitAtColon l with
  | none => false
  | some (bef, rest) =>
    !bef.isEmpty && bef.all schemeChar && (rest.isEmpty || rest.any (fun c => !c.isDigit))

/-- `urlparse(url).scheme` truthiness on a `String`. -/
def hasUrlScheme (s : String) : Bool := hasSchemeL s.toList

/-- `utils.clean_url` on a present string: strip whitespace and prepend
`http://` when the URL has no scheme (and is non-empty). -/
def cleanUrlS (s : String) : String :=
  let t := pyStrip s
  if t ≠ "" && !hasUrlScheme t then "http://" ++ t else t

/-- `utils.clean_url`: `None` maps to `None`, otherwise `cleanUrlS`. -/
def clean_url : Option String → Option String
  | none => none
  | some s => some (cleanUrlS s)

/-- Lowest index at which `pat` occurs in `l` (Python `str.find`, with
`none` for Python's `-1`). -/
def findSub (l pat : List Char) : Option Nat :=
  if pat.isPrefixOf l then some 0
  else
    match l with
    | [] => none
    | _ :: t => (findSub t pat).map (· + 1)

/-- Python `pat in s` (substring containment). -/
def containsSub (s pat : String) : Bool := (findSub s.toList pat.toList).isSome

/-- Python `s.find(pat) > 0`: `pat` occurs, and its first occurrence is at
an index strictly greater than zero. -/
def pyFindGtZero (s pat : String) : Bool :=
  match findSub s.toList pat.toList with
  | some (_ + 1) => true
  | _ => false

/-- Index of the last occurrence of `c` in `l` (Python `str.rfind`). -/
def lastIdxOf (l : List Char) (c : Char) : Option Nat :=
  match l.reverse.findIdx? (· = c) with
  | none => none
  | some i => some (l.length - 1 - i)

/-- `posixpath.splitext`: index where the extension (including its dot)
starts, or `none` when there is no extension.  The last `.` must come after
the last `/`, and the base name up to that dot must not consist solely of
dots. -/
def splitextIdx (l : List Char) : Option Nat :=
  match lastIdxOf l '.' with
  | none => none
  | some d =>
    let start := match lastIdxOf l '/' with
      | none => 0
      | some s => s + 1
    if start ≤ d ∧ ((l.drop start).take (d - start)).any (· ≠ '.') then some d
    else none

/-- `path.splitext(filename)[1].lstrip('.')` as performed on each resource
(`coursera.py`, `extract_sections`). -/
def pyExt (filename : String) : String :=
  match splitextIdx filename.toList with
  | none => ""
  | some d => String.mk ((filename.toList.drop d).dropWhile (· = '.'))

/-- Substitution of a course slug for every literal `\x7bcourse\x7d`
replacement field of a character list; all other characters are copied
verbatim. -/
def replaceCourse (course : String) : List Char → List Char
  | '\x7b' :: 'c' :: 'o' :: 'u' :: 'r' :: 's' :: 'e' :: '\x7d' :: t =>
    course.toList ++ replaceCourse course t
  | c :: t => c :: replaceCourse course t
  | [] => []

/-- Python `template.format(course=course)` for the templates the code
formats: every literal `\x7bcourse\x7d` replacement field is substituted,
all other text (including `%s` percent placeholders) is copied
verbatim. -/
def pyFormatCourse (template course : String) : String :=
  String.mk (replaceCourse course template.toList)

/-- `str.startswith` over the underlying character lists. -/
def pyStartsWith (s pre : String) : Bool := pre.toList.isPrefixOf s.toList

/-- `str.endswith` over the underlying character lists. -/
def pyEndsWith (s suf : String) : Bool := suf.toList.isSuffixOf s.toList

/-- Python `value.replace('\\\x22', '')`: remove every backslash-quote
pair, scanning left to right. -/
def removeBackslashQuote : List Char → List Char
  | '\\' :: '\x22' :: t => removeBackslashQuote t
  | c :: t => c :: removeBackslashQuote t
  | [] => []

/-- Python `int(float(x))` on a decimal number: truncation toward zero
(T-division of numerator by denominator), as applied to the cookie
expiration by the patched `Cookie.__init__` in `cookies.py`. -/
def pyInt (q : ℚ) : ℤ := q.num.tdiv (q.den : ℤ)

/-! ## `define.py` URL constants -/

/-- `define.COURSE_URL` (a `%s`-style template). -/
def COURSE_URL : String := "https://class.coursera.org/%s"

/-- `define.AUTH_URL`. -/
def AUTH_URL : String :=
  COURSE_URL ++ "/auth/auth_redirector?type=login&subtype=normal"

/-- The URL `cookies.get_course_cookies` requests for the course
authentication redirect: `AUTH_URL.format(course=course)`. -/
def authUrlFor (course : String) : String := pyFormatCourse AUTH_URL course

/-! ## Cookie data model (`cookies.py` plus the `cookielib` behaviour it
relies on, modelled at the level of lines and tab-separated fields) -/

/-- One tab-separated data line of a Netscape cookie file:
`domain, includeSubdomains flag, path, secure flag, expiration, name,
value`.  The expiration field is a decimal number or empty (`none`). -/
structure FileRecord where
  domain : String
  domainSpecifiedField : Bool
  path : String
  secureField : Bool
  expiresField : Option ℚ
  name : String
  value : String
deriving Repr, DecidableEq

/-- A line of a cookie file: a comment/blank line, or a data record. -/
inductive FileLine where
  | comment (text : String)
  | record (r : FileRecord)
deriving Repr, DecidableEq

/-- A `cookielib.Cookie` as far as this code observes it.  The patched
constructor stores `int(float(expires))`, and `Cookie.__init__` lowercases
the domain. -/
structure Cookie where
  domain : String
  domainSpecified : Bool
  path : String
  secure : Bool
  expires : Option ℤ
  discard : Bool
  name : String
  value : Option String
deriving Repr, DecidableEq

/-- `Cookie.is_expired(now)`: there is an expiration and it is `≤ now`. -/
def isExpired (now : ℚ) (c : Cookie) : Bool :=
  match c.expires with
  | none => false
  | some e => (e : ℚ) ≤ now

/-- Two cookies share the jar key `(domain, path, name)` used for
replacement by `CookieJar.set_cookie`. -/
def sameKey (a b : Cookie) : Bool :=
  a.domain == b.domain && a.path == b.path && a.name == b.name

/-- `CookieJar.set_cookie`: replace any cookie with the same
`(domain, path, name)` key, then add the new cookie. -/
def setCookie (jar : List Cookie) (c : Cookie) : List Cookie :=
  jar.filter (fun d => !sameKey d c) ++ [c]

/-- Build a `Cookie` from a file record, following
`MozillaCookieJar._really_load`: an empty name field swaps name and value,
the includeSubdomains flag must agree with the leading dot of the domain
(the library's `assert`; `none` models the resulting `LoadError`), an
empty expiration marks the cookie as a discard (session) cookie, and the
constructor truncates the expiration and lowercases the domain. -/
def parseRecord (r : FileRecord) : Option Cookie :=
  let nv : String × Option String :=
    if r.name = "" then (r.value, none) else (r.name, some r.value)
  let initialDot := pyStartsWith r.domain "."
  if r.domainSpecifiedField = initialDot then
    some
      { domain := pyLower r.domain
        domainSpecified := r.domainSpecifiedField
        path := r.path
        secure := r.secureField
        expires := r.expiresField.map pyInt
        discard := r.expiresField.isNone
        name := nv.1
        value := nv.2 }
  else none

/-- The loop body of `MozillaCookieJar._really_load` with
`ignore_discard = ignore_expires = False`: comment and blank lines are
skipped, a malformed record aborts with a `LoadError`, discard cookies and
cookies already expired at load time are silently dropped, all other
cookies are added with `set_cookie`. -/
def reallyLoad (now : ℚ) : List FileLine → List Cookie → Except String (List Cookie)
  | [], jar => .ok jar
  | .comment _ :: rest, jar => reallyLoad now rest jar
  | .record r :: rest, jar =>
    match parseRecord r with
    | none => .error "invalid Netscape format cookies file"
    | some c =>
      if c.discard then reallyLoad now rest jar
      else if isExpired now c then reallyLoad now rest jar
      else reallyLoad now rest (setCookie jar c)

/-- `cookies.load`: the synthesized Netscape header is prepended *without a
newline*, so the reader's magic-line check consumes the header together
with the first line of the file; the remaining lines go through
`_really_load` (the magic check always succeeds thanks to the prepended
header). -/
def load (now : ℚ) (file : List FileLine) : Except String (List Cookie) :=
  reallyLoad now (file.drop 1) []

/-- The header `MozillaCookieJar.save` writes (`NETSCAPE_HEADER_TEXT`):
three comment lines and a blank line. -/
def headerLines : List FileLine :=
  [.comment "# Netscape HTTP Cookie File",
   .comment "# http://curl.haxx.se/rfc/cookie_spec.html",
   .comment "# This is a generated file!  Do not edit.",
   .comment ""]

/-- The data line `MozillaCookieJar.save` writes for one cookie: the
includeSubdomains flag is recomputed from the leading dot, and a cookie
without a value is written with an empty name field and the name in the
value field. -/
def writeRecord (c : Cookie) : FileRecord :=
  { domain := c.domain
    domainSpecifiedField := pyStartsWith c.domain "."
    path := c.path
    secureField := c.secure
    expiresField := c.expires.map (fun i => (i : ℚ))
    name := match c.value with
      | none => ""
      | some _ => c.name
    value := match c.value with
      | none => c.name
      | some v => v }

/-- `cookies.write` / `MozillaCookieJar.save` with default flags: header
followed by one line per cookie, skipping discard cookies and cookies
expired at save time. -/
def save (now : ℚ) (jar : List Cookie) : List FileLine :=
  headerLines ++
    jar.filterMap (fun c =>
      if c.discard then none
      else if isExpired now c then none
      else some (.record (writeRecord c)))

/-- `RequestsCookieJar.set_cookie`: a value that both starts and ends with
a double quote has every `\"` sequence removed before the cookie is stored
with the ordinary `set_cookie`. -/
def requestsNorm (c : Cookie) : Cookie :=
  match c.value with
  | none => c
  | some v =>
    if pyStartsWith v "\"" && pyEndsWith v "\"" then
      { c with value := some (String.mk (removeBackslashQuote v.toList)) }
    else c

/-- Adding one cookie to a `RequestsCookieJar`. -/
def requestsSetCookie (jar : List Cookie) (c : Cookie) : List Cookie :=
  setCookie jar (requestsNorm c)

/-- The filter of `cookies.read_for_course`: platform-wide cookies
(`.coursera.org`) or course-host cookies (`class.coursera.org`) whose path
is exactly `/<course>`. -/
def coursePred (course : String) (c : Cookie) : Bool :=
  c.domain == ".coursera.org" ||
    (c.domain == "class.coursera.org" && c.path == "/" ++ course)

/-- `cookies.read_for_course`: load the file, keep only the cookies the
filter accepts, and re-add them one by one to a fresh requests jar. -/
def read_for_course (now : ℚ) (file : List FileLine) (course : String) :
    Except String (List Cookie) :=
  match load now file with
  | .error e => .error e
  | .ok cj => .ok (((cj.filter (coursePred course))).foldl requestsSetCookie [])

/-- `RequestsCookieJar.get(name, domain=domain, path=path)`: the value of
the unique cookie matching name, domain and path — but a falsy stored
value (`None` or the empty string) makes the lookup fall back to the
default `None`. -/
def requestsGet (jar : List Cookie) (name domain path : String) : Option String :=
  match jar.find? (fun c => c.name == name && c.domain == domain && c.path == path) with
  | none => none
  | some c =>
    match c.value with
    | none => none
    | some v => if v = "" then none else some v

/-- `cookies.has_course_cookies`: the `csrf_token` cookie scoped to
`class.coursera.org` at path `/<course>` is present. -/
def has_course_cookies (jar : List Cookie) (course : String) : Bool :=
  (requestsGet jar "csrf_token" "class.coursera.org" ("/" ++ course)).isSome

/-- `CookieJar.clear('.coursera.org')` (with the `KeyError` for an absent
domain caught by the caller): drop every cookie of that domain. -/
def clearDomain (jar : List Cookie) (domain : String) : List Cookie :=
  jar.filter (fun c => c.domain != domain)

/-- Observable outcome of `cookies.validate_session`: the returned
boolean, the session's cookie jar afterwards, and the URLs of the HTTP
requests issued. -/
structure SessionEffect where
  result : Bool
  cookies : List Cookie
  requests : List String
deriving Repr, DecidableEq

/-- `cookies.validate_session`, with the HEAD request modelled by a status
oracle: without the course cookies it returns `False` at once; otherwise
it issues one HEAD request to `COURSE_URL.format(course=course) + '/class'`
and, on a non-200 status, clears the `.coursera.org` cookies. -/
def validate_session (head : String → Nat) (jar : List Cookie) (course : String) :
    SessionEffect :=
  if !has_course_cookies jar course then ⟨false, jar, []⟩
  else
    let url := pyFormatCourse COURSE_URL course ++ "/class"
    if head url = 200 then ⟨true, jar, [url]⟩
    else ⟨false, clearDomain jar ".coursera.org", [url]⟩

/-! ## Syllabus parser and resource resolver
(`CourseraDownloader.extract_sections` / `_get_hidden_resources`).
HTML is modelled structurally: exactly the fields the BeautifulSoup
queries extract. -/

/-- A resource dict as built by `extract_sections`. -/
structure Resource where
  url : String
  name : String
  filename : String
  ext : String
deriving Repr, DecidableEq

/-- An `<a>` element inside a lecture's resource container: its `href`
attribute (possibly absent) and its `title` attribute (`get('title', '')`
defaults to the empty string). -/
structure ResourceLink where
  href : Option String
  title : String
deriving Repr, DecidableEq

/-- A lecture `<li>` item: the text of its anchor, the links of its
resource container (empty when the container is absent), and the
`data-modal-iframe` attribute of its lecture-level link, when present. -/
structure LectureItem where
  anchorText : String
  links : List ResourceLink
  modalIframe : Option String
deriving Repr, DecidableEq

/-- A section header together with its sibling lecture list. -/
structure SectionHtml where
  heading : String
  items : List LectureItem
deriving Repr, DecidableEq

/-- A `<track kind="subtitles">` element of a secondary lecture page. -/
structure Track where
  src : String
  srclang : String
deriving Repr, DecidableEq

/-- A secondary (modal) lecture page: the `src` of the first
`<source type="video/mp4">` element if any, and the subtitle tracks. -/
structure SecondaryPage where
  videoSrc : Option String
  tracks : List Track
deriving Repr, DecidableEq

/-- Outcome of fetching a secondary lecture page through
`get_response`/`get_page`: the parsed page, or an HTTP error raised after
retry exhaustion. -/
inductive FetchResult where
  | ok (page : SecondaryPage)
  | httpError (msg : String)
deriving Repr, DecidableEq

/-- A Python exception escaping the modelled code. -/
inductive PyError where
  | unboundLocal (var : String)
deriving Repr, DecidableEq

/-- A lecture dict (`name`, `resources`; the unused `time` field is
omitted). -/
structure Lecture where
  name : String
  resources : List Resource
deriving Repr, DecidableEq

/-- A section dict. -/
structure CSection where
  name : String
  lectures : List Lecture
deriving Repr, DecidableEq

/-- The subtitle resource `_get_hidden_resources` builds for one track. -/
def subtitleResource (t : Track) : Resource :=
  let lang := pyStrip t.srclang
  { url := cleanUrlS t.src
    name := "Subtitles " ++ lang
    filename := "Subtitles " ++ lang ++ ".srt"
    ext := "srt" }

/-- The video resource `_get_hidden_resources` builds from the video
element. -/
def mkVideoResource (lectureName src : String) : Resource :=
  { url := cleanUrlS src
    name := pyStrip lectureName
    filename := "video.mp4"
    ext := "mp4" }

/-- `CourseraDownloader._get_hidden_resources`.  Faithful to the code's
error handling: when `get_page` raises an HTTP error, the `except` handler
evaluates `resource['url']`, but the local variable `resource` has not
been assigned on that path, so an `UnboundLocalError` escapes.  On a
fetched page without a video element nothing is appended; otherwise the
video resource and one subtitle resource per track are appended. -/
def get_hidden_resources (fetch : String → FetchResult) (lec : Lecture)
    (lectureUrl : String) : Except PyError (List Resource) :=
  match fetch lectureUrl with
  | .httpError _ => .error (.unboundLocal "resource")
  | .ok page =>
    match page.videoSrc with
    | none => .ok lec.resources
    | some src =>
      .ok (lec.resources ++ mkVideoResource lec.name src :: page.tracks.map subtitleResource)

/-- The body of the resource loop of `extract_sections` for one link:
clean the href (skipping absent/empty URLs), derive filename and
extension, skip raw source videos (`url.find('source_videos') > 0`), and
keep the resource only if it has an extension or its URL contains
`cloudfront.net`.  The filename derivation `resource_filename_from_url`
(absent from the sources) is a parameter `rfu`. -/
def linkResource (rfu : String → String) (link : ResourceLink) : Option Resource :=
  match clean_url link.href with
  | none => none
  | some resourceUrl =>
    if resourceUrl = "" then none
    else
      let filename := rfu resourceUrl
      let ext := pyExt filename
      let r : Resource :=
        { url := resourceUrl, name := pyStrip link.title, filename := filename, ext := ext }
      if pyFindGtZero resourceUrl "source_videos" then none
      else if ext ≠ "" || containsSub resourceUrl "cloudfront.net" then some r
      else none

/-- The direct resources collected for a lecture item. -/
def directResources (rfu : String → String) (links : List ResourceLink) : List Resource :=
  links.filterMap (linkResource rfu)

/-- Processing of one lecture item: build the lecture from its direct
resources; when none of them is an mp4, fall back to the modal window —
`continue` (yield nothing) when the lecture link has no
`data-modal-iframe` attribute, otherwise delegate to
`_get_hidden_resources` (whose exceptions propagate). -/
def processItem (rfu : String → String) (fetch : String → FetchResult)
    (item : LectureItem) : Except PyError (Option Lecture) :=
  let lec : Lecture := ⟨pyStrip item.anchorText, directResources rfu item.links⟩
  if lec.resources.any (fun r => r.ext == "mp4") then .ok (some lec)
  else
    match item.modalIframe with
    | none => .ok none
    | some modal =>
      match get_hidden_resources fetch lec (cleanUrlS modal) with
      | .error e => .error e
      | .ok rs => .ok (some ⟨lec.name, rs⟩)

/-- The lecture loop of `extract_sections`: items yielding a lecture are
appended in order, skipped items contribute nothing. -/
def processItems (rfu : String → String) (fetch : String → FetchResult) :
    List LectureItem → Except PyError (List Lecture)
  | [] => .ok []
  | item :: rest =>
    match processItem rfu fetch item with
    | .error e => .error e
    | .ok o =>
      match processItems rfu fetch rest with
      | .error e => .error e
      | .ok tail => .ok (match o with | none => tail | some l => l :: tail)

/-- `CourseraDownloader.extract_sections`: one section per header, in
document order, each holding the lectures its loop appended. -/
def extract_sections (rfu : String → String) (fetch : String → FetchResult) :
    List SectionHtml → Except PyError (List CSection)
  | [] => .ok []
  | s :: rest =>
    match processItems rfu fetch s.items with
    | .error e => .error e
    | .ok lecs =>
      match extract_sections rfu fetch rest with
      | .error e => .error e
      | .ok tail => .ok (⟨pyStrip s.heading, lecs⟩ :: tail)

/-- The segment after the last `/` of a character list. -/
def lastSeg : List Char → List Char → List Char
  | acc, [] => acc
  | acc, c :: t => if c = '/' then lastSeg [] t else lastSeg (acc ++ [c]) t

/-- Modelled from the spec: `resource_filename_from_url` is called by
`extract_sections` but its definition is missing from the sources
(`utils.py` does not define it).  The spec's glossary describes it as
mapping the URL's path segments or query parameters to a usable filename;
we model the basic case: the last path segment of the URL after dropping
the query string. -/
def resource_filename_from_url (url : String) : String :=
  let noQuery := url.toList.takeWhile (fun c => c ≠ '?')
  String.mk (lastSeg [] noQuery)

/-- The spec's phrasing of the CDN rule speaks of the *host* of the
normalized URL: the authority component between `://` and the next `/`,
`?` or `#`. -/
def urlHost (url : String) : String :=
  match findSub url.toList "://".toList with
  | none => ""
  | some i =>
    String.mk ((url.toList.drop (i + 3)).takeWhile
      (fun c => c ≠ '/' ∧ c ≠ '?' ∧ c ≠ '#'))

/-- The spec's CDN-host test: the host *is* the platform CDN domain, i.e.
`cloudfront.net` itself or one of its subdomains. -/
def isCdnHost (h : String) : Bool :=
  h == "cloudfront.net" || pyEndsWith h ".cloudfront.net"

/-! ## Auxiliary definitions for the stated properties -/

/-- The record projection the round-trip property compares cookies by:
domain, path, name, value. -/
def dpnv (c : Cookie) : String × String × String × Option String :=
  (c.domain, c.path, c.name, c.value)

/-- Invariant of every cookie produced by `load`: the domain is fixed
under lowercasing, a cookie with a value has a non-empty name, it is not
a discard cookie, it has an expiration, and that expiration had not
passed at load time. -/
def goodCookie (now : ℚ) (c : Cookie) : Prop :=
  pyLower c.domain = c.domain ∧ (c.value ≠ none → c.name ≠ "") ∧
    c.discard = false ∧ c.expires ≠ none ∧ isExpired now c = false

/-- Pairwise distinctness of the `(domain, path, name)` jar keys. -/
def distinctKeys (jar : List Cookie) : Prop :=
  jar.Pairwise (fun a b => sameKey a b = false)

/-- The cookie obtained by writing a cookie with
`MozillaCookieJar.save` and reading the line back with `_really_load`
(the composite `parseRecord ∘ writeRecord`, spelled out). -/
def reloadC (c : Cookie) : Cookie :=
  let rn : String := match c.value with | none => "" | some _ => c.name
  let rv : String := match c.value with | none => c.name | some v => v
  let nv : String × Option String := if rn = "" then (rv, none) else (rn, some rv)
  { domain := pyLower c.domain
    domainSpecified := pyStartsWith c.domain "."
    path := c.path
    secure := c.secure
    expires := (c.expires.map (fun i => ((i : ℤ) : ℚ))).map pyInt
    discard := (c.expires.map (fun i => ((i : ℤ) : ℚ))).isNone
    name := nv.1
    value := nv.2 }

/-- A concrete well-formed cookie file: header line, three platform-wide
cookies, three course-host cookies at path `/course-001`, and two
course-host cookies at an unrelated path. -/
def cookieFileExample : List FileLine :=
  [.comment "# Netscape HTTP Cookie File",
   .record ⟨".coursera.org", true, "/", false, some 9999, "a1", "v1"⟩,
   .record ⟨".coursera.org", true, "/", false, some 9999, "a2", "v2"⟩,
   .record ⟨".coursera.org", true, "/", true, some 9999, "a3", "v3"⟩,
   .record ⟨"class.coursera.org", false, "/course-001", false, some 9999, "b1", "w1"⟩,
   .record ⟨"class.coursera.org", false, "/course-001", false, some 9999, "b2", "w2"⟩,
   .record ⟨"class.coursera.org", false, "/course-001", true, some 9999, "csrf_token", "tok"⟩,
   .record ⟨"class.coursera.org", false, "/other", false, some 9999, "c1", "x1"⟩,
   .record ⟨"class.coursera.org", false, "/other", false, some 9999, "c2", "x2"⟩]

/-- A cookie file whose single record is expired at load time `10`. -/
def expiredCookieFile : List FileLine :=
  [.comment "# Netscape HTTP Cookie File",
   .record ⟨".coursera.org", true, "/", false, some 5, "csrf_token", "v"⟩]

/-- Decidable equality for the modelled outcomes. -/
instance {ε α : Type} [DecidableEq ε] [DecidableEq α] : DecidableEq (Except ε α) := fun a b =>
  match a, b with
  | .ok x, .ok y =>
    if h : x = y then isTrue (by rw [h]) else isFalse (by intro hc; cases hc; exact h rfl)
  | .error x, .error y =>
    if h : x = y then isTrue (by rw [h]) else isFalse (by intro hc; cases hc; exact h rfl)
  | .ok _, .error _ => isFalse (by intro hc; cases hc)
  | .error _, .ok _ => isFalse (by intro hc; cases hc)

/-! ## General lemmas -/

theorem char_toNat_ofNat {n : Nat} (h : n.isValidChar) : (Char.ofNat n).toNat = n := by
  simp [Char.ofNat, h, Char.ofNatAux, Char.toNat, UInt32.toNat, BitVec.toNat_ofNatLt]

theorem lowerChar_idem (c : Char) : lowerChar (lowerChar c) = lowerChar c := by
  by_cases h : 65 ≤ c.toNat ∧ c.toNat ≤ 90
  · have hv : (c.toNat + 32).isValidChar := Or.inl (by omega)
    have ht : (Char.ofNat (c.toNat + 32)).toNat = c.toNat + 32 := char_toNat_ofNat hv
    simp only [lowerChar, if_pos h]
    rw [if_neg (by omega)]
  · simp only [lowerChar, if_neg h]

theorem pyLower_idem (s : String) : pyLower (pyLower s) = pyLower s := by
  simp only [pyLower]
  have h : (String.mk (s.toList.map lowerChar)).toList = s.toList.map lowerChar := rfl
  rw [h, List.map_map]
  congr 1
  exact List.map_congr_left (fun a _ => lowerChar_idem a)

theorem pyInt_intCast (i : ℤ) : pyInt ((i : ℚ)) = i := by
  simp [pyInt, Rat.num_intCast, Rat.den_intCast]

/-! ## Claim C5: the course auth-redirect URL -/

/-- C5: the claim states that the AccountAuthenticated → CourseAuthenticated
transition GETs `<course-host>/<course>/auth/auth_redirector?...`, the
course slug being substituted into the URL.  The code instead requests the
literal template: `AUTH_URL` is a `%s`-style template
(`define.py`), while `get_course_cookies` substitutes with
`str.format(course=course)`, which leaves `%s` untouched and ignores the
unused keyword, so the slug never appears in the requested URL. -/
theorem claim_C5_eval :
    authUrlFor "course-001" =
      "https://class.coursera.org/%s/auth/auth_redirector?type=login&subtype=normal" ∧
    containsSub (authUrlFor "course-001") "course-001" = false := by
  constructor
  · rfl
  · decide

/-! ## Claim C4: HTTP error while fetching the secondary page -/

/-- C4: the claim states an HTTP error fetching the secondary lecture page
is caught and logged, with no exception escaping `_get_hidden_resources`.
In the code the `except` handler itself evaluates `resource['url']`, but
`resource` is only assigned later in the `try` body than the fetch, so on
this path an `UnboundLocalError` escapes the resolver for every lecture
and URL. -/
theorem claim_C4_eval (msg : String) (lec : Lecture) (url : String) :
    get_hidden_resources (fun _ => .httpError msg) lec url =
      .error (.unboundLocal "resource") := rfl

/-! ## Claim C8: resources appended from a fetched secondary page -/

/-- C8: on a successfully fetched secondary page, no video element means
nothing is appended and no exception is raised; a video element yields
exactly one `video.mp4` resource followed by one `.srt` subtitle resource
per subtitle track, with the stated names, filenames and extensions. -/
theorem claim_C8 (p : SecondaryPage) (lec : Lecture) (url : String) :
    get_hidden_resources (fun _ => .ok p) lec url =
      .ok (lec.resources ++
        (match p.videoSrc with
         | none => []
         | some src => mkVideoResource lec.name src :: p.tracks.map subtitleResource)) ∧
    (∀ n s, (mkVideoResource n s).filename = "video.mp4" ∧ (mkVideoResource n s).ext = "mp4") ∧
    (∀ t : Track, (subtitleResource t).name = "Subtitles " ++ pyStrip t.srclang ∧
      (subtitleResource t).filename = "Subtitles " ++ pyStrip t.srclang ++ ".srt" ∧
      (subtitleResource t).ext = "srt") := by
  refine ⟨?_, fun n s => ⟨rfl, rfl⟩, fun t => ⟨rfl, rfl, rfl⟩⟩
  cases h : p.videoSrc with
  | none => simp [get_hidden_resources, h]
  | some src => simp [get_hidden_resources, h]

/-! ## Claim C10: validation without the course cookie -/

/-- C10: when the jar lacks the course-scoped `csrf_token` cookie,
`validate_session` returns `False` immediately, issues no HTTP request and
leaves the jar unchanged; and the jar is modified only in the branch where
the course cookie is present and the HEAD status is not 200. -/
theorem claim_C10 :
    (∀ (head : String → Nat) jar course, has_course_cookies jar course = false →
      validate_session head jar course = ⟨false, jar, []⟩) ∧
    (∀ (head : String → Nat) jar course,
      (validate_session head jar course).cookies ≠ jar →
      has_course_cookies jar course = true ∧
        head (pyFormatCourse COURSE_URL course ++ "/class") ≠ 200) := by
  constructor
  · intro head jar course h
    simp [validate_session, h]
  · intro head jar course h
    by_cases hc : has_course_cookies jar course
    · by_cases hh : head (pyFormatCourse COURSE_URL course ++ "/class") = 200
      · exfalso; apply h; simp [validate_session, hc, hh]
      · exact ⟨hc, hh⟩
    · exfalso; apply h
      simp [validate_session, Bool.not_eq_true _ ▸ hc]

/-- Witness for C10 at a concrete session: an empty jar has no course
cookie, so validation returns `False` with no request and no change. -/
theorem claim_C10_witness :
    validate_session (fun _ => 200) [] "course-001" = ⟨false, [], []⟩ :=
  claim_C10.1 (fun _ => 200) [] "course-001" (by decide)

/-! ## Claim C1: lecture with no mp4 and no modal link -/

/-- C1 fails on the code: for a syllabus page whose single lecture has no
direct mp4 resource and whose lecture link carries no `data-modal-iframe`
attribute, the loop's `continue` skips the append, so the section's
lecture list is empty — the lecture is *not* included. -/
theorem claim_C1_counterexample :
    (directResources resource_filename_from_url
        (⟨"Lec1", [], none⟩ : LectureItem).links).any (fun r => r.ext == "mp4") = false ∧
    (⟨"Lec1", [], none⟩ : LectureItem).modalIframe = none ∧
    extract_sections resource_filename_from_url (fun _ => .httpError "")
      [⟨"W1", [⟨"Lec1", [], none⟩]⟩] = .ok [⟨"W1", []⟩] :=
  ⟨rfl, rfl, rfl⟩

/-- C1 amended: when none of a lecture's direct resources is an mp4 and
its lecture link has no modal-iframe attribute, the lecture is *omitted*
from its section's lecture list (the loop continues with the remaining
lectures, contributing nothing for this one). -/
theorem claim_C1_amended (rfu : String → String) (fetch : String → FetchResult)
    (item : LectureItem) (rest : List LectureItem)
    (h1 : (directResources rfu item.links).any (fun r => r.ext == "mp4") = false)
    (h2 : item.modalIframe = none) :
    processItems rfu fetch (item :: rest) = processItems rfu fetch rest := by
  have hp : processItem rfu fetch item = .ok none := by
    simp [processItem, h1, h2]
  rw [processItems, hp]
  cases h : processItems rfu fetch rest <;> simp

/-- Witness for C1 amended at a concrete lecture item. -/
theorem claim_C1_amended_witness :
    processItems resource_filename_from_url (fun _ => .httpError "")
        [⟨"Lec1", [], none⟩] = processItems resource_filename_from_url (fun _ => .httpError "") [] :=
  claim_C1_amended resource_filename_from_url (fun _ => .httpError "")
    ⟨"Lec1", [], none⟩ [] (by decide) rfl

/-! ## Claim C2: expired cookies at load time -/

/-- C2 fails on the code: a well-formed cookie file whose single record is
expired at load time yields an *empty* jar (`_really_load` is called with
`ignore_expires=False` and drops it), and filtering for a course that
would include it yields nothing either. -/
theorem claim_C2_counterexample :
    load 10 expiredCookieFile = .ok [] ∧
    read_for_course 10 expiredCookieFile "course-001" = .ok [] ∧
    coursePred "course-001"
      ⟨".coursera.org", true, "/", false, some 5, false, "csrf_token", some "v"⟩ = true := by
  refine ⟨by decide, by decide, by decide⟩

/-! ## Claim C6: extension-empty resources and the CDN rule -/

/-- C6 fails on the code: the code keeps an extension-less resource when
`cloudfront.net` occurs *anywhere in the URL*, not only when the URL's
host is the CDN domain.  Concretely, a resource link whose URL mentions
`cloudfront.net` only in its query string is included although its
extension is empty and its host is not the CDN domain. -/
theorem claim_C6_counterexample :
    linkResource resource_filename_from_url
        ⟨some "http://example.com/doc?x=cloudfront.net", "t"⟩ =
      some ⟨"http://example.com/doc?x=cloudfront.net", "t", "doc", ""⟩ ∧
    pyExt (resource_filename_from_url "http://example.com/doc?x=cloudfront.net") = "" ∧
    isCdnHost (urlHost "http://example.com/doc?x=cloudfront.net") = false := by
  refine ⟨rfl, rfl, by decide⟩

/-- C6 amended: a resource link (whose normalized URL does not contain the
raw-source-video marker) is included in the lecture's resource list iff
its derived extension is non-empty or its normalized URL *contains the
substring* `cloudfront.net`; extension-empty resources without that
substring are dropped. -/
theorem claim_C6_amended (rfu : String → String) (link : ResourceLink) (u : String)
    (hclean : clean_url link.href = some u) (hne : u ≠ "")
    (hmarker : pyFindGtZero u "source_videos" = false) :
    (linkResource rfu link).isSome = true ↔
      (pyExt (rfu u) ≠ "" ∨ containsSub u "cloudfront.net" = true) := by
  cases hhref : link.href with
  | none => rw [hhref] at hclean; simp [clean_url] at hclean
  | some s =>
    rw [hhref] at hclean
    simp only [clean_url, Option.some.injEq] at hclean
    simp only [linkResource, hhref, clean_url, hclean, if_neg hne, hmarker]
    by_cases hext : pyExt (rfu u) = ""
    · by_cases hcdn : containsSub u "cloudfront.net" = true
      · simp [hext, hcdn]
      · simp [hext, hcdn]
    · simp [hext]

/-- Witness for C6 amended: a pdf resource on a non-CDN host is kept. -/
theorem claim_C6_amended_witness :
    (linkResource resource_filename_from_url
        ⟨some "http://example.com/notes.pdf", ""⟩).isSome = true ↔
      (pyExt (resource_filename_from_url "http://example.com/notes.pdf") ≠ "" ∨
        containsSub "http://example.com/notes.pdf" "cloudfront.net" = true) :=
  claim_C6_amended resource_filename_from_url ⟨some "http://example.com/notes.pdf", ""⟩
    "http://example.com/notes.pdf" (by decide) (by decide) (by decide)

/-! ## Claim C7: raw source videos are always skipped -/

theorem hasSchemeL_sv (t : List Char) :
    hasSchemeL ("source_videos".toList ++ t) = false := by
  show hasSchemeL ('s' :: 'o' :: 'u' :: 'r' :: 'c' :: 'e' :: '_' :: 'v' :: 'i' :: 'd' :: 'e' :: 'o' :: 's' :: t) = false
  unfold hasSchemeL
  cases h : splitAtColon t with
  | none => simp [splitAtColon, h]
  | some p => simp [splitAtColon, h, schemeChar]

theorem findSub_some_zero {l pat : List Char} (h : findSub l pat = some 0) :
    pat.isPrefixOf l = true := by
  by_cases hp : pat.isPrefixOf l
  · exact hp
  · exfalso
    unfold findSub at h
    rw [if_neg hp] at h
    cases l with
    | nil => simp at h
    | cons c t =>
      rw [Option.map_eq_some'] at h
      obtain ⟨a, _, ha⟩ := h
      omega

theorem not_sv_prefix_http (x : String) :
    "source_videos".toList.isPrefixOf (("http://" ++ x).toList) = false := by
  show "source_videos".toList.isPrefixOf ('h' :: 't' :: 't' :: 'p' :: ':' :: '/' :: '/' :: x.toList) = false
  simp [List.isPrefixOf]

/-- C7: every resource link whose normalized URL contains the
`source_videos` marker is excluded from the lecture's resource list,
regardless of extension or host.  (The code tests `find(...) > 0`, but a
normalized URL can never *start* with the marker: `clean_url` either
prepends `http://` or leaves a URL whose scheme prefix cannot contain
`_`, so the test is equivalent to containment.) -/
theorem claim_C7 (rfu : String → String) (link : ResourceLink) (u : String)
    (hclean : clean_url link.href = some u)
    (hcontains : containsSub u "source_videos" = true) :
    linkResource rfu link = none := by
  have hne : u ≠ "" := by
    intro h
    rw [h] at hcontains
    exact absurd hcontains (by decide)
  have hnopre : "source_videos".toList.isPrefixOf u.toList = false := by
    cases hhref : link.href with
    | none => rw [hhref] at hclean; simp [clean_url] at hclean
    | some s =>
      rw [hhref] at hclean
      simp only [clean_url, Option.some.injEq] at hclean
      rw [← hclean]
      unfold cleanUrlS
      by_cases hc : pyStrip s ≠ "" ∧ !hasUrlScheme (pyStrip s) = true
      · rw [if_pos (by simpa using hc)]
        exact not_sv_prefix_http (pyStrip s)
      · rw [if_neg (by simpa using hc)]
        by_cases hz : pyStrip s = ""
        · rw [hz]; decide
        · have hsch : hasUrlScheme (pyStrip s) = true := by
            rcases not_and_or.mp hc with h1 | h2
            · exact absurd hz (by simpa using h1)
            · simpa using h2
          cases hpre : "source_videos".toList.isPrefixOf (pyStrip s).toList with
          | false => rfl
          | true =>
            exfalso
            obtain ⟨rest, hrest⟩ := List.isPrefixOf_iff_prefix.mp hpre
            have hsch2 : hasSchemeL ((pyStrip s).toList) = true := hsch
            rw [← hrest, hasSchemeL_sv] at hsch2
            exact absurd hsch2 (by decide)
  have hgt : pyFindGtZero u "source_videos" = true := by
    unfold containsSub at hcontains
    unfold pyFindGtZero
    cases hf : findSub u.toList "source_videos".toList with
    | none => rw [hf] at hcontains; simp at hcontains
    | some i =>
      cases i with
      | zero =>
        have := findSub_some_zero hf
        rw [hnopre] at this
        exact absurd this (by decide)
      | succ n => rfl
  cases hhref : link.href with
  | none => rw [hhref] at hclean; simp [clean_url] at hclean
  | some s =>
    rw [hhref] at hclean
    simp only [clean_url, Option.some.injEq] at hclean
    simp [linkResource, hhref, clean_url, hclean, hne, hgt]


/-- Witness for C7 at a concrete raw-source-video link. -/
theorem claim_C7_witness :
    linkResource resource_filename_from_url
      ⟨some "http://x/source_videos/a.mp4", ""⟩ = none :=
  claim_C7 resource_filename_from_url ⟨some "http://x/source_videos/a.mp4", ""⟩
    "http://x/source_videos/a.mp4" (by decide) (by decide)

/-! ## Cookie-jar invariants and claims C2 (amended), C3, C9 -/

theorem mem_setCookie {jar : List Cookie} {k c : Cookie} (h : c ∈ setCookie jar k) :
    c = k ∨ c ∈ jar := by
  unfold setCookie at h
  rcases List.mem_append.mp h with h1 | h1
  · exact Or.inr (List.mem_of_mem_filter h1)
  · simp at h1
    exact Or.inl h1

theorem distinctKeys_setCookie {jar : List Cookie} {k : Cookie} (h : distinctKeys jar) :
    distinctKeys (setCookie jar k) := by
  unfold distinctKeys setCookie
  apply List.pairwise_append.mpr
  refine ⟨h.filter _, List.pairwise_singleton _ _, ?_⟩
  intro a ha b hb
  simp only [List.mem_singleton] at hb
  subst hb
  have := (List.mem_filter.mp ha).2
  simpa using this

theorem parseRecord_good {now : ℚ} {r : FileRecord} {c : Cookie}
    (h : parseRecord r = some c) (hd : c.discard = false)
    (he : isExpired now c = false) : goodCookie now c := by
  unfold parseRecord at h
  split at h
  · dsimp only at h
    split at h
    · simp only [Option.some.injEq] at h
      subst h
      refine ⟨pyLower_idem _, fun hv => absurd rfl hv, hd, ?_, he⟩
      simp only at hd ⊢
      intro hx
      rw [Option.map_eq_none'] at hx
      rw [hx] at hd
      simp [Option.isNone] at hd
    · exact absurd h (by simp)
  · rename_i hn
    dsimp only at h
    split at h
    · simp only [Option.some.injEq] at h
      subst h
      refine ⟨pyLower_idem _, fun _ => hn, hd, ?_, he⟩
      simp only at hd ⊢
      intro hx
      rw [Option.map_eq_none'] at hx
      rw [hx] at hd
      simp [Option.isNone] at hd
    · exact absurd h (by simp)

theorem reallyLoad_good {now : ℚ} :
    ∀ (lines : List FileLine) (jar0 jar : List Cookie),
      reallyLoad now lines jar0 = .ok jar →
      (∀ c ∈ jar0, goodCookie now c) → distinctKeys jar0 →
      (∀ c ∈ jar, goodCookie now c) ∧ distinctKeys jar := by
  intro lines
  induction lines with
  | nil =>
    intro jar0 jar h hg hd
    unfold reallyLoad at h
    simp only [Except.ok.injEq] at h
    subst h
    exact ⟨hg, hd⟩
  | cons line rest ih =>
    intro jar0 jar h hg hd
    cases line with
    | comment s => exact ih jar0 jar h hg hd
    | record r =>
      unfold reallyLoad at h
      cases hp : parseRecord r with
      | none => rw [hp] at h; exact absurd h (by simp)
      | some c =>
        rw [hp] at h
        dsimp only at h
        by_cases hdis : c.discard = true
        · rw [if_pos hdis] at h
          exact ih _ _ h hg hd
        · rw [if_neg hdis] at h
          by_cases hexp : isExpired now c = true
          · rw [if_pos hexp] at h
            exact ih _ _ h hg hd
          · rw [if_neg hexp] at h
            apply ih _ _ h
            · intro x hx
              rcases mem_setCookie hx with rfl | hx
              · exact parseRecord_good hp (by simpa using hdis) (by simpa using hexp)
              · exact hg x hx
            · exact distinctKeys_setCookie hd

theorem load_good {now : ℚ} {file : List FileLine} {jar : List Cookie}
    (h : load now file = .ok jar) :
    (∀ c ∈ jar, goodCookie now c) ∧ distinctKeys jar :=
  reallyLoad_good _ _ _ h (by simp) (by simp [distinctKeys])

theorem requestsNorm_domain (c : Cookie) : (requestsNorm c).domain = c.domain := by
  unfold requestsNorm
  cases c.value
  · rfl
  · dsimp only
    split <;> rfl

theorem requestsNorm_path (c : Cookie) : (requestsNorm c).path = c.path := by
  unfold requestsNorm
  cases c.value
  · rfl
  · dsimp only
    split <;> rfl

theorem requestsNorm_name (c : Cookie) : (requestsNorm c).name = c.name := by
  unfold requestsNorm
  cases c.value
  · rfl
  · dsimp only
    split <;> rfl

theorem requestsNorm_expires (c : Cookie) : (requestsNorm c).expires = c.expires := by
  unfold requestsNorm
  cases c.value
  · rfl
  · dsimp only
    split <;> rfl

theorem isExpired_requestsNorm (now : ℚ) (c : Cookie) :
    isExpired now (requestsNorm c) = isExpired now c := by
  unfold isExpired
  rw [requestsNorm_expires]

theorem sameKey_requestsNorm (a b : Cookie) :
    sameKey (requestsNorm a) b = sameKey a b := by
  unfold sameKey
  rw [requestsNorm_domain, requestsNorm_path, requestsNorm_name]

theorem mem_foldl_requestsSetCookie :
    ∀ (l acc : List Cookie) (c : Cookie), c ∈ l.foldl requestsSetCookie acc →
      c ∈ acc ∨ ∃ c0 ∈ l, c = requestsNorm c0 := by
  intro l
  induction l with
  | nil =>
    intro acc c h
    exact Or.inl h
  | cons k t ih =>
    intro acc c h
    rcases ih _ _ h with h1 | ⟨c0, hc0, hc⟩
    · rcases mem_setCookie h1 with rfl | h2
      · exact Or.inr ⟨k, List.mem_cons_self _ _, rfl⟩
      · exact Or.inl h2
    · exact Or.inr ⟨c0, List.mem_cons_of_mem _ hc0, hc⟩

theorem foldl_setCookie_of_disjoint :
    ∀ (l acc : List Cookie), l.Pairwise (fun a b => sameKey a b = false) →
      (∀ a ∈ acc, ∀ b ∈ l, sameKey a b = false) →
      l.foldl setCookie acc = acc ++ l := by
  intro l
  induction l with
  | nil => intro acc _ _; simp
  | cons k t ih =>
    intro acc hp hd
    have hacc : setCookie acc k = acc ++ [k] := by
      unfold setCookie
      congr 1
      apply List.filter_eq_self.mpr
      intro a ha
      simp [hd a ha k (List.mem_cons_self _ _)]
    show List.foldl setCookie (setCookie acc k) t = acc ++ k :: t
    rw [hacc, ih (acc ++ [k]) (List.Pairwise.of_cons hp) ?_]
    · simp
    · intro a ha b hb
      rcases List.mem_append.mp ha with h1 | h1
      · exact hd a h1 b (List.mem_cons_of_mem _ hb)
      · simp only [List.mem_singleton] at h1
        subst h1
        exact (List.pairwise_cons.mp hp).1 b hb

theorem foldl_requestsSetCookie_eq_map (l : List Cookie) (h : distinctKeys l) :
    l.foldl requestsSetCookie [] = l.map requestsNorm := by
  have h1 : l.foldl requestsSetCookie [] = (l.map requestsNorm).foldl setCookie [] := by
    rw [List.foldl_map]
    rfl
  rw [h1, foldl_setCookie_of_disjoint _ _ ?_ (by simp)]
  · simp
  · rw [List.pairwise_map]
    apply h.imp_of_mem
    intro a b _ _ hab
    rw [sameKey_requestsNorm]
    unfold sameKey at hab ⊢
    rw [requestsNorm_domain, requestsNorm_path, requestsNorm_name]
    exact hab

/-! ## Claim C2 (amended): load filters out expired cookies -/

/-- C2 amended: loading *does* perform expiry filtering — a record whose
expiration lies at or before load time is dropped, so no loaded cookie is
expired, and the course-filtered jar cannot contain one either. -/
theorem claim_C2_amended :
    (∀ (now : ℚ) (file : List FileLine) (jar : List Cookie) (c : Cookie),
      load now file = .ok jar → c ∈ jar → isExpired now c = false) ∧
    (∀ (now : ℚ) (file : List FileLine) (course : String) (jar : List Cookie) (c : Cookie),
      read_for_course now file course = .ok jar → c ∈ jar → isExpired now c = false) := by
  constructor
  · intro now file jar c h hc
    exact ((load_good h).1 c hc).2.2.2.2
  · intro now file course jar c h hc
    unfold read_for_course at h
    cases hl : load now file with
    | error e => rw [hl] at h; exact absurd h (by simp)
    | ok cj =>
      rw [hl] at h
      dsimp only at h
      simp only [Except.ok.injEq] at h
      subst h
      rcases mem_foldl_requestsSetCookie _ _ _ hc with h1 | ⟨c0, hc0, rfl⟩
      · simp at h1
      · rw [isExpired_requestsNorm]
        exact ((load_good hl).1 c0 (List.mem_of_mem_filter hc0)).2.2.2.2

/-- Witness for C2 amended: a cookie loaded from the example file is not
expired at load time. -/
theorem claim_C2_amended_witness :
    isExpired 0 ⟨".coursera.org", true, "/", false, some 9999, false, "a1", some "v1"⟩ = false :=
  claim_C2_amended.1 0 cookieFileExample
    [⟨".coursera.org", true, "/", false, some 9999, false, "a1", some "v1"⟩,
     ⟨".coursera.org", true, "/", false, some 9999, false, "a2", some "v2"⟩,
     ⟨".coursera.org", true, "/", true, some 9999, false, "a3", some "v3"⟩,
     ⟨"class.coursera.org", false, "/course-001", false, some 9999, false, "b1", some "w1"⟩,
     ⟨"class.coursera.org", false, "/course-001", false, some 9999, false, "b2", some "w2"⟩,
     ⟨"class.coursera.org", false, "/course-001", true, some 9999, false, "csrf_token", some "tok"⟩,
     ⟨"class.coursera.org", false, "/other", false, some 9999, false, "c1", some "x1"⟩,
     ⟨"class.coursera.org", false, "/other", false, some 9999, false, "c2", some "x2"⟩]
    ⟨".coursera.org", true, "/", false, some 9999, false, "a1", some "v1"⟩
    (by decide) (by decide)

/-! ## Claim C3: filtering a jar for a course -/

/-- C3: `read_for_course` returns exactly the loaded cookies whose domain
is the platform-wide domain, or whose domain is the course host with path
exactly `/<course>` (each passed through the requests jar's value
normalization, which touches no domain, path or name); and on the example
file with 3 platform-wide cookies, 3 course-host cookies at
`/course-001` and 2 at an unrelated path, the filtered jar has size 6. -/
theorem claim_C3 :
    (∀ (now : ℚ) (file : List FileLine) (course : String) (jar : List Cookie),
      load now file = .ok jar →
      read_for_course now file course =
        .ok ((jar.filter (coursePred course)).map requestsNorm) ∧
      (∀ c : Cookie, c ∈ (jar.filter (coursePred course)).map requestsNorm ↔
        ∃ c0, c0 ∈ jar ∧ coursePred course c0 = true ∧ c = requestsNorm c0)) ∧
    (read_for_course 0 cookieFileExample "course-001" =
      .ok [⟨".coursera.org", true, "/", false, some 9999, false, "a1", some "v1"⟩,
           ⟨".coursera.org", true, "/", false, some 9999, false, "a2", some "v2"⟩,
           ⟨".coursera.org", true, "/", true, some 9999, false, "a3", some "v3"⟩,
           ⟨"class.coursera.org", false, "/course-001", false, some 9999, false, "b1", some "w1"⟩,
           ⟨"class.coursera.org", false, "/course-001", false, some 9999, false, "b2", some "w2"⟩,
           ⟨"class.coursera.org", false, "/course-001", true, some 9999, false, "csrf_token", some "tok"⟩] ∧
      ([⟨".coursera.org", true, "/", false, some 9999, false, "a1", some "v1"⟩,
        ⟨".coursera.org", true, "/", false, some 9999, false, "a2", some "v2"⟩,
        ⟨".coursera.org", true, "/", true, some 9999, false, "a3", some "v3"⟩,
        ⟨"class.coursera.org", false, "/course-001", false, some 9999, false, "b1", some "w1"⟩,
        ⟨"class.coursera.org", false, "/course-001", false, some 9999, false, "b2", some "w2"⟩,
        ⟨"class.coursera.org", false, "/course-001", true, some 9999, false, "csrf_token", some "tok"⟩] :
          List Cookie).length = 6) := by
  refine ⟨?_, by decide, by decide⟩
  intro now file course jar h
  constructor
  · unfold read_for_course
    rw [h]
    dsimp only
    congr 1
    apply foldl_requestsSetCookie_eq_map
    exact List.Pairwise.sublist (List.filter_sublist _) (load_good h).2
  · intro c
    simp only [List.mem_map, List.mem_filter]
    constructor
    · rintro ⟨c0, ⟨hc0, hp⟩, rfl⟩
      exact ⟨c0, hc0, hp, rfl⟩
    · rintro ⟨c0, hc0, hp, rfl⟩
      exact ⟨c0, ⟨hc0, hp⟩, rfl⟩

/-- Witness for C3: instantiating the universal part at the example file. -/
theorem claim_C3_witness :
    read_for_course 0 cookieFileExample "nothing" =
      .ok (((match load 0 cookieFileExample with | .ok j => j | .error _ => []).filter
        (coursePred "nothing")).map requestsNorm) :=
  (claim_C3.1 0 cookieFileExample "nothing"
    (match load 0 cookieFileExample with | .ok j => j | .error _ => [])
    (by decide)).1

/-! ## Claim C9: save/load round trip -/

theorem parseRecord_writeRecord (c : Cookie) :
    parseRecord (writeRecord c) = some (reloadC c) := by
  unfold parseRecord writeRecord reloadC
  dsimp only
  rw [if_pos rfl]
  cases hx : c.expires <;> simp [hx]

theorem reloadC_expires (c : Cookie) : (reloadC c).expires = c.expires := by
  unfold reloadC
  cases h : c.expires with
  | none => simp [h]
  | some e => simp [h, pyInt_intCast]

theorem reloadC_discard (c : Cookie) : (reloadC c).discard = c.expires.isNone := by
  unfold reloadC
  cases h : c.expires <;> simp [h]

theorem isExpired_reloadC (now : ℚ) (c : Cookie) :
    isExpired now (reloadC c) = isExpired now c := by
  unfold isExpired
  rw [reloadC_expires]

theorem dpnv_reloadC {now : ℚ} {c : Cookie} (h : goodCookie now c) :
    dpnv (reloadC c) = dpnv c := by
  obtain ⟨hdom, hval, -, -, -⟩ := h
  unfold dpnv reloadC
  cases hv : c.value with
  | none => simp [hv, hdom]
  | some v =>
    have hn : c.name ≠ "" := hval (by simp [hv])
    simp [hv, hdom, hn]

theorem sameKey_reloadC {now : ℚ} {a b : Cookie}
    (ha : goodCookie now a) (hb : goodCookie now b) :
    sameKey (reloadC a) (reloadC b) = sameKey a b := by
  have h1 := dpnv_reloadC ha
  have h2 := dpnv_reloadC hb
  unfold dpnv at h1 h2
  simp only [Prod.mk.injEq] at h1 h2
  obtain ⟨hd1, hp1, hn1, -⟩ := h1
  obtain ⟨hd2, hp2, hn2, -⟩ := h2
  unfold sameKey
  rw [hd1, hp1, hn1, hd2, hp2, hn2]

theorem filterMap_save {now : ℚ} :
    ∀ jar : List Cookie, (∀ c ∈ jar, goodCookie now c) →
      (jar.filterMap (fun c =>
        if c.discard then none
        else if isExpired now c then none
        else some (FileLine.record (writeRecord c)))) =
        jar.map (fun c => FileLine.record (writeRecord c)) := by
  intro jar
  induction jar with
  | nil => intro _; rfl
  | cons c t ih =>
    intro h
    obtain ⟨-, -, hd, -, he⟩ := h c (List.mem_cons_self _ _)
    simp only [List.filterMap_cons, List.map_cons, hd, he]
    simp only [Bool.false_eq_true, if_false]
    rw [ih (fun x hx => h x (List.mem_cons_of_mem _ hx))]

theorem reallyLoad_records {now : ℚ} :
    ∀ (l : List Cookie) (jar0 : List Cookie),
      (∀ c ∈ l, (reloadC c).discard = false ∧ isExpired now (reloadC c) = false) →
      reallyLoad now (l.map (fun c => FileLine.record (writeRecord c))) jar0 =
        .ok ((l.map reloadC).foldl setCookie jar0) := by
  intro l
  induction l with
  | nil => intro jar0 _; rfl
  | cons c t ih =>
    intro jar0 h
    obtain ⟨hd, he⟩ := h c (List.mem_cons_self _ _)
    show reallyLoad now (FileLine.record (writeRecord c) :: t.map _) jar0 = _
    unfold reallyLoad
    rw [parseRecord_writeRecord]
    dsimp only
    rw [if_neg (by simp [hd]), if_neg (by simp [he])]
    exact ih _ (fun x hx => h x (List.mem_cons_of_mem _ hx))

/-- C9: saving the jar obtained by loading a cookie file and loading the
saved file back yields a jar whose records agree with the original jar on
(domain, path, name, value) — pointwise, hence also as sets. -/
theorem claim_C9 (now : ℚ) (file : List FileLine) (jar : List Cookie)
    (h : load now file = .ok jar) :
    ∃ jar2, load now (save now jar) = .ok jar2 ∧
      jar2.map dpnv = jar.map dpnv ∧
      (∀ q, q ∈ jar2.map dpnv ↔ q ∈ jar.map dpnv) := by
  obtain ⟨hg, hd⟩ := load_good h
  have hgood2 : ∀ c ∈ jar, (reloadC c).discard = false ∧ isExpired now (reloadC c) = false := by
    intro c hc
    obtain ⟨-, -, -, hexp, he⟩ := hg c hc
    constructor
    · rw [reloadC_discard]
      cases hx : c.expires with
      | none => exact absurd hx hexp
      | some e => simp
    · rw [isExpired_reloadC]
      exact he
  have hmap : (jar.map reloadC).map dpnv = jar.map dpnv := by
    rw [List.map_map]
    exact List.map_congr_left (fun c hc => dpnv_reloadC (hg c hc))
  refine ⟨jar.map reloadC, ?_, hmap, fun q => by rw [hmap]⟩
  unfold load save
  rw [filterMap_save jar hg]
  have hstep : (headerLines ++ jar.map (fun c => FileLine.record (writeRecord c))).drop 1 =
      [FileLine.comment "# http://curl.haxx.se/rfc/cookie_spec.html",
       FileLine.comment "# This is a generated file!  Do not edit.",
       FileLine.comment ""] ++ jar.map (fun c => FileLine.record (writeRecord c)) := by
    simp [headerLines]
  have hcomm : reallyLoad now
      ([FileLine.comment "# http://curl.haxx.se/rfc/cookie_spec.html",
        FileLine.comment "# This is a generated file!  Do not edit.",
        FileLine.comment ""] ++ jar.map (fun c => FileLine.record (writeRecord c))) [] =
      reallyLoad now (jar.map (fun c => FileLine.record (writeRecord c))) [] := rfl
  have hpair : (jar.map reloadC).Pairwise (fun a b => sameKey a b = false) := by
    rw [List.pairwise_map]
    refine List.Pairwise.imp_of_mem ?_ hd
    intro a b hma hmb hab
    rw [sameKey_reloadC (hg a hma) (hg b hmb)]
    exact hab
  have hfold := foldl_setCookie_of_disjoint (jar.map reloadC) [] hpair
    (by intro a ha; simp at ha)
  rw [hstep, hcomm, reallyLoad_records jar [] hgood2, hfold]
  simp

/-- Witness for C9: the round trip at the concrete example file. -/
theorem claim_C9_witness :
    ∃ jar2, load 0 (save 0 ([⟨".coursera.org", true, "/", false, some 9999, false, "a1", some "v1"⟩,
       ⟨".coursera.org", true, "/", false, some 9999, false, "a2", some "v2"⟩,
       ⟨".coursera.org", true, "/", true, some 9999, false, "a3", some "v3"⟩,
       ⟨"class.coursera.org", false, "/course-001", false, some 9999, false, "b1", some "w1"⟩,
       ⟨"class.coursera.org", false, "/course-001", false, some 9999, false, "b2", some "w2"⟩,
       ⟨"class.coursera.org", false, "/course-001", true, some 9999, false, "csrf_token", some "tok"⟩,
       ⟨"class.coursera.org", false, "/other", false, some 9999, false, "c1", some "x1"⟩,
       ⟨"class.coursera.org", false, "/other", false, some 9999, false, "c2", some "x2"⟩] : List Cookie)) = .ok jar2 ∧
      jar2.map dpnv = ([⟨".coursera.org", true, "/", false, some 9999, false, "a1", some "v1"⟩,
       ⟨".coursera.org", true, "/", false, some 9999, false, "a2", some "v2"⟩,
       ⟨".coursera.org", true, "/", true, some 9999, false, "a3", some "v3"⟩,
       ⟨"class.coursera.org", false, "/course-001", false, some 9999, false, "b1", some "w1"⟩,
       ⟨"class.coursera.org", false, "/course-001", false, some 9999, false, "b2", some "w2"⟩,
       ⟨"class.coursera.org", false, "/course-001", true, some 9999, false, "csrf_token", some "tok"⟩,
       ⟨"class.coursera.org", false, "/other", false, some 9999, false, "c1", some "x1"⟩,
       ⟨"class.coursera.org", false, "/other", false, some 9999, false, "c2", some "x2"⟩] : List Cookie).map dpnv ∧
      (∀ q, q ∈ jar2.map dpnv ↔ q ∈ ([⟨".coursera.org", true, "/", false, some 9999, false, "a1", some "v1"⟩,
       ⟨".coursera.org", true, "/", false, some 9999, false, "a2", some "v2"⟩,
       ⟨".coursera.org", true, "/", true, some 9999, false, "a3", some "v3"⟩,
       ⟨"class.coursera.org", false, "/course-001", false, some 9999, false, "b1", some "w1"⟩,
       ⟨"class.coursera.org", false, "/course-001", false, some 9999, false, "b2", some "w2"⟩,
       ⟨"class.coursera.org", false, "/course-001", true, some 9999, false, "csrf_token", some "tok"⟩,
       ⟨"class.coursera.org", false, "/other", false, some 9999, false, "c1", some "x1"⟩,
       ⟨"class.coursera.org", false, "/other", false, some 9999, false, "c2", some "x2"⟩] : List Cookie).map dpnv) :=
  claim_C9 0 cookieFileExample [⟨".coursera.org", true, "/", false, some 9999, false, "a1", some "v1"⟩,
       ⟨".coursera.org", true, "/", false, some 9999, false, "a2", some "v2"⟩,
       ⟨".coursera.org", true, "/", true, some 9999, false, "a3", some "v3"⟩,
       ⟨"class.coursera.org", false, "/course-001", false, some 9999, false, "b1", some "w1"⟩,
       ⟨"class.coursera.org", false, "/course-001", false, some 9999, false, "b2", some "w2"⟩,
       ⟨"class.coursera.org", false, "/course-001", true, some 9999, false, "csrf_token", some "tok"⟩,
       ⟨"class.coursera.org", false, "/other", false, some 9999, false, "c1", some "x1"⟩,
       ⟨"class.coursera.org", false, "/other", false, some 9999, false, "c2", some "x2"⟩] (by decide)

end Coursera
